import Mathlib

/-!
Shallow embedding of the `financed` backend (NestJS personal-finance tracker).

Numbers: JavaScript numbers are modelled as exact rationals (`ℚ`).  For the
divide-by-zero behaviour of the summary computation a second number type
`JSNum` adds the IEEE special values `Infinity`, `-Infinity` and `NaN` with
JavaScript division and multiplication semantics, so that the unguarded
`totalSpent / monthlyLimit` at `monthlyLimit = 0` can be analysed faithfully.

Identifiers: `randomUUID()` produces an opaque string id of which the code
only ever uses equality; it is modelled as a `Nat` drawn from a per-store
fresh counter.

Dates: a valid JavaScript `Date` answers `getMonth()` with a 0-indexed month
in `0..11` and `getFullYear()` with the year; `JSDate` records exactly those
two observations, which are the only ones the repository code makes.
-/

namespace Financed

/-- Observable part of a valid JavaScript `Date`: `getMonth` is the
0-indexed month (always in `0..11`), `getFullYear` the calendar year. -/
structure JSDate where
  getMonth : Fin 12
  getFullYear : Int
deriving DecidableEq

/-- Domain entity `Expense` (backend/src/domain/entities/expense.entity.ts). -/
structure Expense where
  id : Nat
  amount : ℚ
  description : String
  category : String
  date : JSDate
  userId : String
deriving DecidableEq

/-- Domain entity `SpendingLimit`
(backend/src/domain/entities/spending-limit.entity.ts). -/
structure SpendingLimit where
  id : Nat
  userId : String
  monthlyLimit : ℚ
  month : Int
  year : Int
deriving DecidableEq

/-- Body of `POST /expenses` after the controller has parsed the date
(the id-less `Omit` of `Expense` in create-expense.use-case.ts). -/
structure CreateExpenseDto where
  amount : ℚ
  description : String
  category : String
  date : JSDate
  userId : String
deriving DecidableEq

/-- Body of `POST /spending-limits` (the id-less `Omit` of `SpendingLimit`). -/
structure CreateLimitDto where
  userId : String
  monthlyLimit : ℚ
  month : Int
  year : Int
deriving DecidableEq

/-- Argument of `InMemoryExpenseRepository.update`: `Partial<Expense>` with
the `id` member ignored by the implementation, so only the five mutable
fields appear; `none` stands for an absent (undefined) member. -/
structure ExpenseUpdate where
  amount : Option ℚ
  description : Option String
  category : Option String
  date : Option JSDate
  userId : Option String
deriving DecidableEq

/-- State of one `InMemoryExpenseRepository` instance: the private
`expenses` array plus the fresh-id counter standing in for `randomUUID`. -/
structure ExpenseStore where
  expenses : List Expense
  nextId : Nat
deriving DecidableEq

/-- State of one `InMemorySpendingLimitRepository` instance. -/
structure LimitStore where
  limits : List SpendingLimit
  nextId : Nat
deriving DecidableEq

namespace ExpenseRepo

/-- Match predicate of `InMemoryExpenseRepository.findByMonth`:
`expense.userId === userId && expense.date.getMonth() + 1 === month &&
expense.date.getFullYear() === year`. -/
def monthMatch (userId : String) (month year : Int) (e : Expense) : Prop :=
  e.userId = userId ∧ (e.date.getMonth : Int) + 1 = month ∧ e.date.getFullYear = year

instance (userId : String) (month year : Int) (e : Expense) :
    Decidable (monthMatch userId month year e) := by
  unfold monthMatch; infer_instance

/-- `InMemoryExpenseRepository.findAll`: filter on `userId`. -/
def findAll (expenses : List Expense) (userId : String) : List Expense :=
  expenses.filter (fun e => decide (e.userId = userId))

/-- `InMemoryExpenseRepository.findById`: `find(...) || null`. -/
def findById (expenses : List Expense) (id : Nat) : Option Expense :=
  expenses.find? (fun e => decide (e.id = id))

/-- `InMemoryExpenseRepository.findByMonth`: filter on user and calendar
month/year of the stored date. -/
def findByMonth (expenses : List Expense) (userId : String) (month year : Int) :
    List Expense :=
  expenses.filter (fun e => decide (monthMatch userId month year e))

/-- `InMemoryExpenseRepository.create`: build a new `Expense` with a fresh id
and push it at the end of the array. -/
def create (st : ExpenseStore) (dto : CreateExpenseDto) : Expense × ExpenseStore :=
  let newExpense : Expense :=
    ⟨st.nextId, dto.amount, dto.description, dto.category, dto.date, dto.userId⟩
  (newExpense, ⟨st.expenses ++ [newExpense], st.nextId + 1⟩)

/-- Merged record built by `InMemoryExpenseRepository.update` at the found
index: each `??` (nullish coalescing) becomes `Option.getD`. -/
def merged (id : Nat) (e : Expense) (p : ExpenseUpdate) : Expense :=
  ⟨id, p.amount.getD e.amount, p.description.getD e.description,
    p.category.getD e.category, p.date.getD e.date, p.userId.getD e.userId⟩

/-- `InMemoryExpenseRepository.update`: `findIndex`, `throw new Error` when
the id is absent, otherwise replace the element at the found (first
matching) index.  The imperative find-index-and-assign is rendered as
structural recursion replacing the first match; the second component is the
`expenses` array after the call (unchanged when the error is thrown, since
the throw happens before any assignment). -/
def update (expenses : List Expense) (id : Nat) (p : ExpenseUpdate) :
    Except String Expense × List Expense :=
  match expenses with
  | [] => (Except.error "Expense not found", [])
  | e :: rest =>
      if e.id = id then
        (Except.ok (merged id e p), merged id e p :: rest)
      else
        ((update rest id p).1, e :: (update rest id p).2)

/-- `InMemoryExpenseRepository.delete`: keep every expense whose id differs;
the function is total, mirroring the absence of any throw in the source. -/
def delete (expenses : List Expense) (id : Nat) : List Expense :=
  expenses.filter (fun e => decide (¬ e.id = id))

end ExpenseRepo

namespace LimitRepo

/-- Match predicate of `InMemorySpendingLimitRepository.findByUserAndMonth`. -/
def keyMatch (userId : String) (month year : Int) (l : SpendingLimit) : Prop :=
  l.userId = userId ∧ l.month = month ∧ l.year = year

instance (userId : String) (month year : Int) (l : SpendingLimit) :
    Decidable (keyMatch userId month year l) := by
  unfold keyMatch; infer_instance

/-- `InMemorySpendingLimitRepository.findByUserAndMonth`:
`find(...) || null`, i.e. the first record in insertion order matching the
(userId, month, year) key. -/
def findByUserAndMonth (limits : List SpendingLimit) (userId : String)
    (month year : Int) : Option SpendingLimit :=
  limits.find? (fun l => decide (keyMatch userId month year l))

/-- `InMemorySpendingLimitRepository.create`: build a new `SpendingLimit`
with a fresh id and push it; no duplicate-key check of any kind. -/
def create (st : LimitStore) (dto : CreateLimitDto) : SpendingLimit × LimitStore :=
  let newLimit : SpendingLimit :=
    ⟨st.nextId, dto.userId, dto.monthlyLimit, dto.month, dto.year⟩
  (newLimit, ⟨st.limits ++ [newLimit], st.nextId + 1⟩)

end LimitRepo

/-- Result record of `GetSpendingSummaryUseCase.execute`
(get-spending-summary.use-case.ts), over exact rationals. -/
structure SpendingSummary where
  totalSpent : ℚ
  spendingLimit : Option ℚ
  remainingBudget : Option ℚ
  percentageUsed : Option ℚ
deriving DecidableEq

namespace GetSpendingSummaryUseCase

/-- `GetSpendingSummaryUseCase.execute` over exact rationals: fetch the
expenses of the month, `reduce` their amounts from 0, look the limit up, and
either return the all-null summary or the arithmetic one.  (`ℚ` division
is total with `q / 0 = 0`; the IEEE behaviour at `monthlyLimit = 0` is
treated separately by `executeJS` below.) -/
def execute (expenses : List Expense) (limits : List SpendingLimit)
    (userId : String) (month year : Int) : SpendingSummary :=
  let es := ExpenseRepo.findByMonth expenses userId month year
  let totalSpent := es.foldl (fun sum e => sum + e.amount) 0
  match LimitRepo.findByUserAndMonth limits userId month year with
  | none => ⟨totalSpent, none, none, none⟩
  | some limit =>
      ⟨totalSpent, some limit.monthlyLimit,
        some (limit.monthlyLimit - totalSpent),
        some (totalSpent / limit.monthlyLimit * 100)⟩

end GetSpendingSummaryUseCase

/-- JavaScript number with the IEEE special values that the backend can
actually produce: a finite value (idealized as an exact rational),
`Infinity`, `-Infinity`, or `NaN`. -/
inductive JSNum where
  | num : ℚ → JSNum
  | posInf : JSNum
  | negInf : JSNum
  | nan : JSNum
deriving DecidableEq

namespace JSNum

/-- JavaScript `+` on numbers (finite arithmetic idealized as exact). -/
def jsAdd : JSNum → JSNum → JSNum
  | nan, _ => nan
  | _, nan => nan
  | posInf, negInf => nan
  | negInf, posInf => nan
  | posInf, _ => posInf
  | _, posInf => posInf
  | negInf, _ => negInf
  | _, negInf => negInf
  | num a, num b => num (a + b)

/-- JavaScript binary `-` on numbers. -/
def jsSub : JSNum → JSNum → JSNum
  | nan, _ => nan
  | _, nan => nan
  | posInf, posInf => nan
  | negInf, negInf => nan
  | posInf, _ => posInf
  | negInf, _ => negInf
  | num _, posInf => negInf
  | num _, negInf => posInf
  | num a, num b => num (a - b)

/-- JavaScript `*` on numbers. -/
def jsMul : JSNum → JSNum → JSNum
  | nan, _ => nan
  | _, nan => nan
  | num a, num b => num (a * b)
  | posInf, num b => if b = 0 then nan else if 0 < b then posInf else negInf
  | num a, posInf => if a = 0 then nan else if 0 < a then posInf else negInf
  | negInf, num b => if b = 0 then nan else if 0 < b then negInf else posInf
  | num a, negInf => if a = 0 then nan else if 0 < a then negInf else posInf
  | posInf, posInf => posInf
  | posInf, negInf => negInf
  | negInf, posInf => negInf
  | negInf, negInf => posInf

/-- JavaScript `/` on numbers: division by zero yields `NaN` for `0 / 0`
and a signed infinity otherwise (the stores never hold a negative zero,
so the `-0` denominator case is not modelled). -/
def jsDiv : JSNum → JSNum → JSNum
  | nan, _ => nan
  | _, nan => nan
  | num a, num b =>
      if b = 0 then (if a = 0 then nan else if 0 < a then posInf else negInf)
      else num (a / b)
  | posInf, num b => if b < 0 then negInf else posInf
  | negInf, num b => if b < 0 then posInf else negInf
  | posInf, _ => nan
  | negInf, _ => nan
  | num _, posInf => num 0
  | num _, negInf => num 0

/-- The value is `Infinity`, `-Infinity` or `NaN` (not an ordinary finite
number). -/
def nonFinite (v : JSNum) : Prop :=
  v = posInf ∨ v = negInf ∨ v = nan

instance (v : JSNum) : Decidable (nonFinite v) := by
  unfold nonFinite; infer_instance

end JSNum

/-- Result of `GetSpendingSummaryUseCase.execute` with IEEE special values
kept visible. -/
structure JSSummary where
  totalSpent : JSNum
  spendingLimit : Option JSNum
  remainingBudget : Option JSNum
  percentageUsed : Option JSNum
deriving DecidableEq

namespace GetSpendingSummaryUseCase

/-- `GetSpendingSummaryUseCase.execute` again, with the arithmetic carried
out in `JSNum`, so that the unguarded `(totalSpent / limit.monthlyLimit) *
100` shows its JavaScript divide-by-zero behaviour.  The function is total:
no code path raises. -/
def executeJS (expenses : List Expense) (limits : List SpendingLimit)
    (userId : String) (month year : Int) : JSSummary :=
  let es := ExpenseRepo.findByMonth expenses userId month year
  let totalSpent := es.foldl (fun sum e => JSNum.jsAdd sum (JSNum.num e.amount)) (JSNum.num 0)
  match LimitRepo.findByUserAndMonth limits userId month year with
  | none => ⟨totalSpent, none, none, none⟩
  | some limit =>
      ⟨totalSpent, some (JSNum.num limit.monthlyLimit),
        some (JSNum.jsSub (JSNum.num limit.monthlyLimit) totalSpent),
        some (JSNum.jsMul (JSNum.jsDiv totalSpent (JSNum.num limit.monthlyLimit))
          (JSNum.num 100))⟩

end GetSpendingSummaryUseCase

/-- Application state as wired by `AppModule` (backend/src/app.module.ts):
one `InMemoryExpenseRepository` singleton bound to the `EXPENSE_REPOSITORY`
token, one `InMemorySpendingLimitRepository` singleton bound to the
`SPENDING_LIMIT_REPOSITORY` token, and a second, never-injected
`InMemorySpendingLimitRepository` instance created by the redundant bare
class provider in the providers list. -/
structure AppState where
  expenseStore : ExpenseStore
  limitStore : LimitStore
  unusedLimitStore : LimitStore
deriving DecidableEq

/-- Application state with both stores empty and fresh counters at 0. -/
def AppState.initial : AppState := ⟨⟨[], 0⟩, ⟨[], 0⟩, ⟨[], 0⟩⟩

namespace SpendingLimitController

/-- `POST /spending-limits` (spending-limit.controller.ts): the controller
injects the `SPENDING_LIMIT_REPOSITORY` token and calls `create` on it. -/
def createLimit (st : AppState) (dto : CreateLimitDto) : SpendingLimit × AppState :=
  let r := LimitRepo.create st.limitStore dto
  (r.1, { st with limitStore := r.2 })

end SpendingLimitController

namespace ExpenseController

/-- `POST /expenses` (expense.controller.ts): `CreateExpenseUseCase.execute`
delegates to `create` on the `EXPENSE_REPOSITORY` token instance; the
controller has already parsed the ISO date string into a date value. -/
def createExpense (st : AppState) (dto : CreateExpenseDto) : Expense × AppState :=
  let r := ExpenseRepo.create st.expenseStore dto
  (r.1, { st with expenseStore := r.2 })

/-- `GET /expenses/summary` (expense.controller.ts):
`GetSpendingSummaryUseCase.execute` reads the `EXPENSE_REPOSITORY` and
`SPENDING_LIMIT_REPOSITORY` token instances. -/
def getSummary (st : AppState) (userId : String) (month year : Int) : SpendingSummary :=
  GetSpendingSummaryUseCase.execute st.expenseStore.expenses st.limitStore.limits
    userId month year

end ExpenseController

/-!
Helper lemmas shared by several claim theorems.
-/

/-- Folding rational addition of amounts from `q` yields `q` plus the sum of
the amounts (the `reduce((sum, expense) => sum + expense.amount, 0)` shape). -/
lemma foldl_add_amount (es : List Expense) (q : ℚ) :
    es.foldl (fun sum e => sum + e.amount) q = q + (es.map fun e => e.amount).sum := by
  induction es generalizing q with
  | nil => simp
  | cons a t ih => simp [ih]; ring

/-- The same fold in `JSNum`: adding finitely many finite amounts stays
finite and is exact. -/
lemma foldl_jsAdd_amount (es : List Expense) (q : ℚ) :
    es.foldl (fun sum e => JSNum.jsAdd sum (JSNum.num e.amount)) (JSNum.num q) =
      JSNum.num (q + (es.map fun e => e.amount).sum) := by
  induction es generalizing q with
  | nil => simp
  | cons a t ih =>
      rw [List.foldl_cons]
      show List.foldl (fun sum e => JSNum.jsAdd sum (JSNum.num e.amount))
        (JSNum.num (q + a.amount)) t = _
      rw [ih]
      congr 1
      simp
      ring

/-- An `update` on a list free of the target id throws and leaves the array
exactly as it was. -/
lemma update_absent_aux (expenses : List Expense) (id : Nat) (p : ExpenseUpdate)
    (h : ∀ e ∈ expenses, ¬ e.id = id) :
    ExpenseRepo.update expenses id p = (Except.error "Expense not found", expenses) := by
  induction expenses with
  | nil => rfl
  | cons a t ih =>
      have ha : ¬ a.id = id := h a (List.mem_cons_self a t)
      have ht : ∀ e ∈ t, ¬ e.id = id := fun e he => h e (List.mem_cons_of_mem a he)
      simp [ExpenseRepo.update, ha, ih ht]

/-- An `update` that finds its id returns the merged record, and the found
record indeed carries the requested id. -/
lemma update_found_aux (expenses : List Expense) (id : Nat) (p : ExpenseUpdate)
    (e : Expense) (h : ExpenseRepo.findById expenses id = some e) :
    (ExpenseRepo.update expenses id p).1 = Except.ok (ExpenseRepo.merged id e p) ∧
      e.id = id := by
  induction expenses with
  | nil => simp [ExpenseRepo.findById] at h
  | cons a t ih =>
      by_cases ha : a.id = id
      · rw [ExpenseRepo.findById, List.find?_cons_of_pos _ (by simp [ha])] at h
        obtain rfl : a = e := by injection h
        simp [ExpenseRepo.update, ha]
      · rw [ExpenseRepo.findById, List.find?_cons_of_neg _ (by simp [ha])] at h
        have := ih h
        simp [ExpenseRepo.update, ha, this.1, this.2]

/-!
Claim theorems.
-/

/-- Claim C1: whenever the spending-limit lookup finds a limit, the summary
computed by `GetSpendingSummaryUseCase` has `totalSpent` equal to the sum
of the amounts of the considered expenses (0 when there are none),
`remainingBudget` equal to `monthlyLimit - totalSpent` with no clamping,
and `percentageUsed` equal to `(totalSpent / monthlyLimit) * 100`. -/
theorem summary_with_limit_fields (expenses : List Expense)
    (limits : List SpendingLimit) (userId : String) (month year : Int)
    (lim : SpendingLimit)
    (h : LimitRepo.findByUserAndMonth limits userId month year = some lim) :
    GetSpendingSummaryUseCase.execute expenses limits userId month year =
      { totalSpent :=
          ((ExpenseRepo.findByMonth expenses userId month year).map fun e => e.amount).sum,
        spendingLimit := some lim.monthlyLimit,
        remainingBudget := some (lim.monthlyLimit -
          ((ExpenseRepo.findByMonth expenses userId month year).map fun e => e.amount).sum),
        percentageUsed := some
          (((ExpenseRepo.findByMonth expenses userId month year).map fun e => e.amount).sum /
            lim.monthlyLimit * 100) } := by
  simp only [GetSpendingSummaryUseCase.execute, h, foldl_add_amount, zero_add]

/-- Witness for C1, realising the quoted instance: with a stored limit of
1000 for (user-123, January 2025) and expenses of 250 and 350 in that
month, the summary is total 600, limit 1000, remaining 400, 60 percent. -/
theorem summary_with_limit_fields_witness :
    GetSpendingSummaryUseCase.execute
        [⟨7, 250, "Groceries", "Food", ⟨0, 2025⟩, "user-123"⟩,
         ⟨8, 350, "Train", "Transport", ⟨0, 2025⟩, "user-123"⟩]
        [⟨3, "user-123", 1000, 1, 2025⟩] "user-123" 1 2025 =
      { totalSpent := 600, spendingLimit := some 1000,
        remainingBudget := some 400, percentageUsed := some 60 } := by
  rw [summary_with_limit_fields _ _ _ _ _ ⟨3, "user-123", 1000, 1, 2025⟩ (by rfl)]
  norm_num [ExpenseRepo.findByMonth, ExpenseRepo.monthMatch]

/-- Claim C2: when the spending-limit lookup returns none, the summary is
exactly the total spent together with three null fields. -/
theorem summary_no_limit_all_null (expenses : List Expense)
    (limits : List SpendingLimit) (userId : String) (month year : Int)
    (h : LimitRepo.findByUserAndMonth limits userId month year = none) :
    GetSpendingSummaryUseCase.execute expenses limits userId month year =
      { totalSpent :=
          ((ExpenseRepo.findByMonth expenses userId month year).map fun e => e.amount).sum,
        spendingLimit := none, remainingBudget := none, percentageUsed := none } := by
  simp only [GetSpendingSummaryUseCase.execute, h, foldl_add_amount, zero_add]

/-- Witness for C2: an empty limit store and one expense of 42 give the
summary with nulls and total 42. -/
theorem summary_no_limit_all_null_witness :
    GetSpendingSummaryUseCase.execute
        [⟨1, 42, "Book", "Leisure", ⟨0, 2025⟩, "user-123"⟩] [] "user-123" 1 2025 =
      { totalSpent := 42, spendingLimit := none, remainingBudget := none,
        percentageUsed := none } := by
  rw [summary_no_limit_all_null _ _ _ _ _ (by rfl)]
  norm_num [ExpenseRepo.findByMonth, ExpenseRepo.monthMatch]

/-- Claim C4: on every store content (in particular every state reachable by
create and delete calls), `findByMonth` returns a subsequence of the store
(insertion order preserved) whose members are exactly the expenses of the
given user whose date has the given 1-indexed month and year; when nothing
matches it is the empty list, no error being possible. -/
theorem findByMonth_exactly_matching (expenses : List Expense) (userId : String)
    (month year : Int) :
    (ExpenseRepo.findByMonth expenses userId month year).Sublist expenses ∧
    ∀ e : Expense,
      e ∈ ExpenseRepo.findByMonth expenses userId month year ↔
        e ∈ expenses ∧ e.userId = userId ∧ (e.date.getMonth : Int) + 1 = month ∧
          e.date.getFullYear = year := by
  refine ⟨List.filter_sublist _, fun e => ?_⟩
  simp [ExpenseRepo.findByMonth, List.mem_filter, ExpenseRepo.monthMatch]

/-- Claim C10: a month argument outside 1..12 can match no stored date,
whose 1-indexed month always lies in 1..12, so `findByMonth` returns the
empty list. -/
theorem findByMonth_out_of_range_empty (expenses : List Expense) (userId : String)
    (month year : Int) (h : month < 1 ∨ 12 < month) :
    ExpenseRepo.findByMonth expenses userId month year = [] := by
  rw [ExpenseRepo.findByMonth, List.filter_eq_nil_iff]
  intro e _
  simp only [decide_eq_true_eq, ExpenseRepo.monthMatch, not_and]
  intro _ hm
  exfalso
  have h12 : (e.date.getMonth : Nat) < 12 := e.date.getMonth.isLt
  omega

/-- Witness for C10: month 13 finds nothing even in a store holding a
December and a January expense. -/
theorem findByMonth_out_of_range_empty_witness :
    ExpenseRepo.findByMonth
        [⟨1, 10, "A", "Food", ⟨11, 2025⟩, "user-123"⟩,
         ⟨2, 20, "B", "Food", ⟨0, 2025⟩, "user-123"⟩] "user-123" 13 2025 = [] :=
  findByMonth_out_of_range_empty _ "user-123" 13 2025 (by norm_num)

/-- January 2025 as a parsed date value. -/
def janDate : JSDate := ⟨0, 2025⟩

/-- Body of the POST /spending-limits call of the end-to-end run. -/
def demoLimitDto : CreateLimitDto := ⟨"user-123", 1000, 1, 2025⟩

/-- First expense of the end-to-end run. -/
def demoExpenseA : CreateExpenseDto := ⟨300, "Expense A", "Food", janDate, "user-123"⟩

/-- Second expense of the end-to-end run. -/
def demoExpenseB : CreateExpenseDto := ⟨300, "Expense B", "Transport", janDate, "user-123"⟩

/-- State after POST /spending-limits on the freshly started application. -/
def demoState1 : AppState :=
  (SpendingLimitController.createLimit AppState.initial demoLimitDto).2

/-- State after the first POST /expenses. -/
def demoState2 : AppState := (ExpenseController.createExpense demoState1 demoExpenseA).2

/-- State after the second POST /expenses. -/
def demoState3 : AppState := (ExpenseController.createExpense demoState2 demoExpenseB).2

/-- Claim C3: through the HTTP layer as wired in AppModule, starting from
empty stores, creating a 1000 limit for (user-123, 1, 2025), then two
expenses of 300 each in that month, GET /expenses/summary answers
total 600, limit 1000, remaining 400, 60 percent. -/
theorem app_summary_end_to_end :
    ExpenseController.getSummary demoState3 "user-123" 1 2025 =
      { totalSpent := 600, spendingLimit := some 1000, remainingBudget := some 400,
        percentageUsed := some 60 } := by
  simp [ExpenseController.getSummary, GetSpendingSummaryUseCase.execute, demoState3,
    demoState2, demoState1, SpendingLimitController.createLimit,
    ExpenseController.createExpense, ExpenseRepo.create, LimitRepo.create,
    ExpenseRepo.findByMonth, LimitRepo.findByUserAndMonth, ExpenseRepo.monthMatch,
    LimitRepo.keyMatch, demoExpenseA, demoExpenseB, demoLimitDto, janDate,
    AppState.initial]
  norm_num

/-- Claim C5: when the matching limit has `monthlyLimit = 0`, the summary is
still returned normally (the embedding of `execute` is a total function:
no code path raises and nothing is substituted), and its `percentageUsed`
field carries the raw JavaScript divide-by-zero outcome: `Infinity`,
`-Infinity` or `NaN`. -/
theorem summary_zero_limit_nonfinite (expenses : List Expense)
    (limits : List SpendingLimit) (userId : String) (month year : Int)
    (lim : SpendingLimit)
    (hfind : LimitRepo.findByUserAndMonth limits userId month year = some lim)
    (h0 : lim.monthlyLimit = 0) :
    ∃ v : JSNum,
      (GetSpendingSummaryUseCase.executeJS expenses limits userId month year).percentageUsed
          = some v ∧ JSNum.nonFinite v := by
  simp only [GetSpendingSummaryUseCase.executeJS, hfind, h0, foldl_jsAdd_amount, zero_add]
  rcases lt_trichotomy ((ExpenseRepo.findByMonth expenses userId month year).map
      fun e => e.amount).sum 0 with hs | hs | hs
  · exact ⟨JSNum.negInf, by norm_num [JSNum.jsDiv, JSNum.jsMul, hs.ne, hs.not_lt],
      Or.inr (Or.inl rfl)⟩
  · exact ⟨JSNum.nan, by norm_num [JSNum.jsDiv, JSNum.jsMul, hs],
      Or.inr (Or.inr rfl)⟩
  · exact ⟨JSNum.posInf, by norm_num [JSNum.jsDiv, JSNum.jsMul, hs.ne.symm, hs],
      Or.inl rfl⟩

/-- Witness for C5: a stored zero limit for (user-123, January 2025) and an
expense of 50 in that month make `percentageUsed` a non-finite value. -/
theorem summary_zero_limit_nonfinite_witness :
    ∃ v : JSNum,
      (GetSpendingSummaryUseCase.executeJS
          [⟨1, 50, "Groceries", "Food", ⟨0, 2025⟩, "user-123"⟩]
          [⟨2, "user-123", 0, 1, 2025⟩] "user-123" 1 2025).percentageUsed = some v ∧
        JSNum.nonFinite v :=
  summary_zero_limit_nonfinite _ _ _ _ _ ⟨2, "user-123", 0, 1, 2025⟩ (by rfl) (by rfl)

/-- Claim C6: `create` on the spending-limit store appends unconditionally,
so two calls with one and the same key leave two coexisting matching
records; and `findByUserAndMonth` answers the first record matching the
key in insertion order, or none when no record matches. -/
theorem limit_create_appends_and_find_first :
    (∀ (st : LimitStore) (dto : CreateLimitDto),
        (LimitRepo.create st dto).2.limits = st.limits ++ [(LimitRepo.create st dto).1]) ∧
    (∀ (st : LimitStore) (dto : CreateLimitDto),
        ∃ a b : SpendingLimit,
          (LimitRepo.create (LimitRepo.create st dto).2 dto).2.limits =
              st.limits ++ [a, b] ∧
            LimitRepo.keyMatch dto.userId dto.month dto.year a ∧
            LimitRepo.keyMatch dto.userId dto.month dto.year b) ∧
    (∀ (limits : List SpendingLimit) (userId : String) (month year : Int),
        (LimitRepo.findByUserAndMonth limits userId month year = none ↔
          ∀ l ∈ limits, ¬ LimitRepo.keyMatch userId month year l) ∧
        ∀ l : SpendingLimit,
          LimitRepo.findByUserAndMonth limits userId month year = some l →
            LimitRepo.keyMatch userId month year l ∧
            ∃ pre post, limits = pre ++ l :: post ∧
              ∀ q ∈ pre, ¬ LimitRepo.keyMatch userId month year q) := by
  refine ⟨fun st dto => by simp [LimitRepo.create], fun st dto => ?_, fun limits u m y => ⟨?_, ?_⟩⟩
  · exact ⟨(LimitRepo.create st dto).1, (LimitRepo.create (LimitRepo.create st dto).2 dto).1,
      by simp [LimitRepo.create], by simp [LimitRepo.create, LimitRepo.keyMatch],
      by simp [LimitRepo.create, LimitRepo.keyMatch]⟩
  · rw [LimitRepo.findByUserAndMonth, List.find?_eq_none]
    simp
  · intro l hl
    rw [LimitRepo.findByUserAndMonth, List.find?_eq_some] at hl
    obtain ⟨hp, pre, post, heq, hpre⟩ := hl
    exact ⟨by simpa using hp, pre, post, heq, fun q hq => by simpa using hpre q hq⟩

/-- Witness for C6: in a store holding two limits with the same key in
insertion order, the lookup answers the earlier one, which matches the key,
and no record precedes it. -/
theorem limit_create_appends_and_find_first_witness :
    LimitRepo.keyMatch "user-123" 1 2025 ⟨0, "user-123", 1000, 1, 2025⟩ ∧
    ∃ pre post,
      [(⟨0, "user-123", 1000, 1, 2025⟩ : SpendingLimit), ⟨1, "user-123", 500, 1, 2025⟩] =
          pre ++ (⟨0, "user-123", 1000, 1, 2025⟩ : SpendingLimit) :: post ∧
        ∀ q ∈ pre, ¬ LimitRepo.keyMatch "user-123" 1 2025 q :=
  (limit_create_appends_and_find_first.2.2
      [⟨0, "user-123", 1000, 1, 2025⟩, ⟨1, "user-123", 500, 1, 2025⟩] "user-123" 1 2025).2
    ⟨0, "user-123", 1000, 1, 2025⟩ (by rfl)

/-- Claim C7: when some stored expense has the given id, `update` succeeds
and returns an expense which keeps the id and every field the partial
leaves out, and takes every field the partial names from the partial
(`Option.getD` renders both at once); when no stored expense has the id,
`update` fails with the not-found error. -/
theorem update_found_and_not_found (expenses : List Expense) (id : Nat)
    (p : ExpenseUpdate) :
    (∀ e : Expense, ExpenseRepo.findById expenses id = some e →
        ∃ m : Expense, (ExpenseRepo.update expenses id p).1 = Except.ok m ∧
          m.id = e.id ∧ m.amount = p.amount.getD e.amount ∧
          m.description = p.description.getD e.description ∧
          m.category = p.category.getD e.category ∧
          m.date = p.date.getD e.date ∧
          m.userId = p.userId.getD e.userId) ∧
    (ExpenseRepo.findById expenses id = none →
        (ExpenseRepo.update expenses id p).1 = Except.error "Expense not found") := by
  constructor
  · intro e he
    obtain ⟨h1, h2⟩ := update_found_aux expenses id p e he
    exact ⟨ExpenseRepo.merged id e p, h1, by simp [ExpenseRepo.merged, h2]⟩
  · intro hn
    have habs : ∀ e ∈ expenses, ¬ e.id = id := by
      rw [ExpenseRepo.findById, List.find?_eq_none] at hn
      simpa using hn
    rw [update_absent_aux expenses id p habs]

/-- Witness for C7: updating the amount of a stored expense to 75 keeps the
id and the four other fields and changes only the amount, while updating a
missing id fails with the not-found error. -/
theorem update_found_and_not_found_witness :
    (∃ m : Expense,
        (ExpenseRepo.update
            [⟨1, 50, "Groceries", "Food", ⟨0, 2025⟩, "user-123"⟩] 1
            ⟨some 75, none, none, none, none⟩).1 = Except.ok m ∧
          m.id = 1 ∧ m.amount = 75 ∧ m.description = "Groceries" ∧
          m.category = "Food" ∧ m.date = (⟨0, 2025⟩ : JSDate) ∧ m.userId = "user-123") ∧
    (ExpenseRepo.update
        [⟨1, 50, "Groceries", "Food", ⟨0, 2025⟩, "user-123"⟩] 99
        ⟨some 75, none, none, none, none⟩).1 = Except.error "Expense not found" :=
  ⟨(update_found_and_not_found _ 1 _).1 ⟨1, 50, "Groceries", "Food", ⟨0, 2025⟩, "user-123"⟩
      (by rfl),
    (update_found_and_not_found _ 99 _).2 (by rfl)⟩

/-- Claim C8: `delete` is a total function (the source has no throw on any
path, present id or not), deleting twice equals deleting once, and a
`findById` on the deleted id afterwards answers none. -/
theorem delete_removes_and_idempotent (expenses : List Expense) (id : Nat) :
    ExpenseRepo.findById (ExpenseRepo.delete expenses id) id = none ∧
    ExpenseRepo.delete (ExpenseRepo.delete expenses id) id =
      ExpenseRepo.delete expenses id := by
  constructor
  · rw [ExpenseRepo.findById, List.find?_eq_none]
    intro e he
    rw [ExpenseRepo.delete, List.mem_filter] at he
    simpa using he.2
  · rw [ExpenseRepo.delete, ExpenseRepo.delete, List.filter_filter]
    exact List.filter_congr fun a _ => Bool.and_self _

/-- Claim C9: an `update` whose id matches no stored expense answers the
not-found error and leaves the array exactly as it was, the throw happening
before any assignment. -/
theorem update_absent_error_preserves_store (expenses : List Expense) (id : Nat)
    (p : ExpenseUpdate) (h : ∀ e ∈ expenses, ¬ e.id = id) :
    ExpenseRepo.update expenses id p = (Except.error "Expense not found", expenses) :=
  update_absent_aux expenses id p h

/-- Witness for C9: updating id 99 in a one-expense store with id 1 fails
and leaves the store as it was. -/
theorem update_absent_error_preserves_store_witness :
    ExpenseRepo.update [⟨1, 50, "Groceries", "Food", ⟨0, 2025⟩, "user-123"⟩] 99
        ⟨some 75, none, none, none, none⟩ =
      (Except.error "Expense not found",
        [⟨1, 50, "Groceries", "Food", ⟨0, 2025⟩, "user-123"⟩]) :=
  update_absent_error_preserves_store _ 99 _ (by decide)

end Financed
